import Mathlib

/-!
# Verification of CoVA-Web-Object-Detection (`main.py`)

A shallow embedding of the entrypoint `main.py` of the CoVA web-object
detection repository, together with models (from the specification) of the
collaborator modules it calls (`train.py`, `evaluate.py`, `models.py`) whose
source is not part of the packaged tree.  Machine floats are modelled by `ℚ`
(exact arithmetic) except for the cross-entropy loss, which needs `exp`/`log`
and is modelled over `ℝ`.
-/

namespace CoVAMain

/-! ## Hyperparameter processing (main.py, lines 56-72) -/

/-- `use_context = CONTEXT_SIZE > 0` (main.py line 61). -/
def use_context (context_size : ℤ) : Bool := context_size > 0

/-- `HIDDEN_DIM = args.hidden_dim if use_context else 0` (main.py line 62). -/
def HIDDEN_DIM (context_size hidden_dim_arg : ℤ) : ℤ :=
  if use_context context_size then hidden_dim_arg else 0

/-- `SAMPLING_FRACTION = args.sampling_fraction if (args.sampling_fraction >= 0
and args.sampling_fraction <= 1) else 1` (main.py lines 68-72). -/
def SAMPLING_FRACTION (sampling_fraction_arg : ℚ) : ℚ :=
  if 0 ≤ sampling_fraction_arg ∧ sampling_fraction_arg ≤ 1 then
    sampling_fraction_arg
  else 1

/-! ## Learning-rate scheduler (main.py, lines 139-141)

`torch.optim.lr_scheduler.StepLR(optimizer, step_size=100, gamma=1)`.
The semantics of `StepLR` follow the PyTorch documentation: after `n` epochs
of stepping, the learning rate is `initial_lr * gamma ^ (n / step_size)`
(integer division). -/

/-- PyTorch `StepLR` learning rate after `nSteps` scheduler steps. -/
def stepLR (initial_lr gamma : ℚ) (step_size nSteps : ℕ) : ℚ :=
  initial_lr * gamma ^ (nSteps / step_size)

/-- The scheduler constructed by main.py lines 139-141: `step_size=100, gamma=1`. -/
def scheduler_lr (initial_lr : ℚ) (nSteps : ℕ) : ℚ :=
  stepLR initial_lr 1 100 nSteps

/-! ## The CoVA model construction (main.py lines 125-135)

`models.py` is not part of the packaged source tree; the architecture is
modelled from the specification, which states that the context aggregator is
an optional sub-component present exactly when the configuration enables
context, decided once at construction time. -/

/-- Modelled from the spec: the constructed CoVA model (`models.py` is absent
from the tree).  Only the structure relevant to the claims is kept: which
optional sub-components exist and the dimensions recorded at construction. -/
structure CoVAModel where
  roi_output : ℤ × ℤ
  img_height : ℤ
  n_classes : ℕ
  /-- Modelled from the spec: "Context Aggregator (present only when context
  size > 0)" — the aggregator (carrying its hidden dimension) is built iff the
  `use_context` flag passed by the caller is set. -/
  contextAggregator : Option ℤ
  bbox_hidden_dim : ℤ
  n_additional_feat : ℤ
  drop_prob : ℚ

/-- Modelled from the spec: the `CoVA` constructor.  It receives the
`use_context` flag and the hidden dimension and decides once, at
construction, whether the context-aggregator sub-component exists. -/
def CoVA (roi_output : ℤ × ℤ) (img_height : ℤ) (n_classes : ℕ)
    (useContext : Bool) (hidden_dim bbox_hidden_dim n_additional_feat : ℤ)
    (drop_prob : ℚ) : CoVAModel :=
  { roi_output := roi_output
    img_height := img_height
    n_classes := n_classes
    contextAggregator := if useContext then some hidden_dim else none
    bbox_hidden_dim := bbox_hidden_dim
    n_additional_feat := n_additional_feat
    drop_prob := drop_prob }

/-- The model instantiated by main.py lines 125-135, as a function of the
command-line arguments it depends on. -/
def mainModel (context_size hidden_dim_arg roi bbox_hidden_dim
    n_additional_feat : ℤ) (drop_prob : ℚ) : CoVAModel :=
  CoVA (roi, roi) 1280 4 (use_context context_size)
    (HIDDEN_DIM context_size hidden_dim_arg) bbox_hidden_dim
    n_additional_feat drop_prob

/-! ## Fold-wise results CSV (main.py lines 169-187) -/

/-- The fixed header row written to `fold_wise_acc.csv` (main.py lines 171-173). -/
def foldAccHeader : String :=
  "Fold,val_avg,price_acc,price_macro_acc,title_acc,title_macro_acc,image_acc,image_macro_acc\n"

/-- One run's effect on the contents of `fold_wise_acc.csv` (main.py lines
169-187): open in append mode, write the header iff the file is empty
(`os.stat(...).st_size == 0`), then write the data row. -/
def appendFoldAcc (content row : String) : String :=
  content ++ (if content = "" then foldAccHeader else "") ++ row

/-- Repeated runs starting from an empty file, each appending its data row. -/
def foldAccAfterRuns (rows : List String) : String :=
  rows.foldl appendFoldAcc ""

/-! ## Optional evaluation inputs (main.py lines 43-54)

`webpage_info` / `test_domains` stay `None` unless the corresponding file
exists in the fold directory. -/

/-- The part of the filesystem state main.py lines 43-54 inspects: whether the
two optional files exist, and their parsed contents when they do.
`webpage_info.csv` rows are `(img_id, domain)` pairs, `test_domains.txt` rows
are domain identifiers. -/
structure FoldDirFiles where
  webpage_info_isfile : Bool
  webpage_info_rows : List (ℕ × ℕ)
  test_domains_isfile : Bool
  test_domains_rows : List ℕ

/-- `webpage_info = None; if os.path.isfile(webpage_info_file):
webpage_info = np.loadtxt(...)` (main.py lines 44-49). -/
def webpage_info (fs : FoldDirFiles) : Option (List (ℕ × ℕ)) :=
  if fs.webpage_info_isfile then some fs.webpage_info_rows else none

/-- `test_domains = None; if os.path.isfile(test_domains_file):
test_domains = np.loadtxt(...)` (main.py lines 51-54). -/
def test_domains (fs : FoldDirFiles) : Option (List ℕ) :=
  if fs.test_domains_isfile then some fs.test_domains_rows else none

/-! ## Evaluation engine

`evaluate.py` is not part of the packaged source tree; the metric
computations are modelled from the specification (§4.6).  A test box is
reduced to the data the metrics depend on: which image it came from, its true
class, and whether the model's prediction was correct. -/

/-- A scored test box before domain assignment: source image, true class
label, and whether the predicted class equals the true class. -/
structure RawBox where
  img_id : ℕ
  label : ℕ
  correct : Bool
deriving DecidableEq

/-- A scored test box with its domain assigned from the webpage-info
metadata. -/
structure TestBox where
  domain : ℕ
  label : ℕ
  correct : Bool
deriving DecidableEq

/-- The boxes of one class `c` among a list of scored boxes. -/
def classBoxes (boxes : List TestBox) (c : ℕ) : List TestBox :=
  boxes.filter (fun b => b.label = c)

/-- Accuracy of a list of scored boxes: correct count over total count
(`0` for the empty list, by rational `x / 0 = 0`). -/
def accOf (l : List TestBox) : ℚ :=
  (l.countP (fun b => b.correct) : ℚ) / (l.length : ℚ)

/-- Modelled from the spec: flat per-class (micro) accuracy — "per-class
accuracy for each of the `N_CLASSES` classes (accuracy restricted to boxes
whose true label equals that class)". -/
def microAcc (boxes : List TestBox) (c : ℕ) : ℚ :=
  accOf (classBoxes boxes c)

/-- The distinct domains among the class-`c` boxes. -/
def domainsOf (boxes : List TestBox) (c : ℕ) : List ℕ :=
  ((classBoxes boxes c).map (fun b => b.domain)).dedup

/-- Modelled from the spec: class-`c` accuracy computed independently within
domain `d`. -/
def domainAcc (boxes : List TestBox) (c : ℕ) (d : ℕ) : ℚ :=
  accOf ((classBoxes boxes c).filter (fun b => b.domain = d))

/-- Modelled from the spec: the macro-averaged accuracy of class `c` — "a
macro-average across domains (unweighted mean of domains' accuracies) per
class". -/
def domainMeanAcc (boxes : List TestBox) (c : ℕ) : ℚ :=
  ((domainsOf boxes c).map (domainAcc boxes c)).sum / ((domainsOf boxes c).length : ℚ)

/-- Domain lookup in the webpage-info rows: first row whose image identifier
matches. -/
def lookupDomain (wi : List (ℕ × ℕ)) (img : ℕ) : Option ℕ :=
  (wi.find? (fun r => r.1 = img)).map (fun r => r.2)

/-- Assign a domain to every raw box from the webpage-info metadata; boxes of
images without metadata are dropped from the domain-wise breakdown. -/
def assignDomains (wi : List (ℕ × ℕ)) (boxes : List RawBox) : List TestBox :=
  boxes.filterMap (fun b =>
    (lookupDomain wi b.img_id).map (fun d => ⟨d, b.label, b.correct⟩))

/-- Restrict to the designated test-domain subset when a filter is present
(spec §4.6: the domain-wise breakdown is restricted to the filtered subset,
overall metrics are not). -/
def restrictDomains (testDoms : Option (List ℕ)) (boxes : List TestBox) :
    List TestBox :=
  match testDoms with
  | none => boxes
  | some doms => boxes.filter (fun b => b.domain ∈ doms)

/-- Result of the evaluation engine: per-class accuracies always; the
domain-wise macro accuracies only when domain metadata was available. -/
structure EvalResult where
  class_acc : List ℚ
  macro_acc : Option (List ℚ)

/-- Modelled from the spec: the `evaluate` engine (`evaluate.py` is absent
from the tree).  It always computes per-class accuracy over all boxes, and
computes the domain-wise macro accuracies only when webpage-info metadata is
supplied, falling back to `none` (no error) when it is absent. -/
def evaluate (boxes : List RawBox) (webpageInfo : Option (List (ℕ × ℕ)))
    (testDoms : Option (List ℕ)) : EvalResult :=
  { class_acc :=
      (List.range 4).map (fun c =>
        microAcc (boxes.map (fun b => ⟨0, b.label, b.correct⟩)) c)
    macro_acc :=
      webpageInfo.map (fun wi =>
        (List.range 4).map (fun c =>
          domainMeanAcc (restrictDomains testDoms (assignDomains wi boxes)) c)) }

/-! ## Cross-entropy criterion (main.py line 142)

`criterion = nn.CrossEntropyLoss(reduction="sum")`.  The semantics of
`nn.CrossEntropyLoss` follow the PyTorch documentation: the per-box loss for
logits `x` and target class `t` is `log (Σⱼ exp xⱼ) - x_t`, multiplied by the
class weight `w_t` when a weight vector is configured; `reduction="sum"` adds
the per-box losses, `reduction="mean"` divides that sum by the total weight. -/

/-- One scored box presented to the loss: its logit vector and target class. -/
structure Sample where
  logits : List ℝ
  target : ℕ

/-- Denominator of the softmax: `Σⱼ exp xⱼ`. -/
noncomputable def softmaxDenom (logits : List ℝ) : ℝ :=
  (logits.map Real.exp).sum

/-- Per-box cross entropy: `-log softmax(x)_t = log (Σⱼ exp xⱼ) - x_t`. -/
noncomputable def perBoxCE (s : Sample) : ℝ :=
  Real.log (softmaxDenom s.logits) - s.logits.getD s.target 0

/-- The class weight applied to one box: `w_t` when a weight vector is
configured, `1` otherwise. -/
def boxWeight (weight : Option (List ℝ)) (s : Sample) : ℝ :=
  match weight with
  | none => 1
  | some w => w.getD s.target 1

/-- PyTorch reduction modes of `nn.CrossEntropyLoss`. -/
inductive Reduction
  | mean
  | sum

/-- `nn.CrossEntropyLoss` over a batch of boxes, with the optional class
weight vector and the reduction mode as configuration. -/
noncomputable def crossEntropyLoss (weight : Option (List ℝ)) (red : Reduction)
    (batch : List Sample) : ℝ :=
  match red with
  | .sum => (batch.map (fun s => boxWeight weight s * perBoxCE s)).sum
  | .mean => (batch.map (fun s => boxWeight weight s * perBoxCE s)).sum /
      (batch.map (boxWeight weight)).sum

/-- The criterion constructed by main.py line 142:
`nn.CrossEntropyLoss(reduction="sum")` — no weight vector, sum reduction. -/
noncomputable def criterion (batch : List Sample) : ℝ :=
  crossEntropyLoss none Reduction.sum batch

/-! ## Training loop

`train.py` is not part of the packaged source tree; the loop is modelled from
the specification (§4.5): epochs `1..N_EPOCHS`; every `EVAL_INTERVAL` epochs
the model is validated and the best validation metric seen so far is tracked
(checkpointing whenever it improves); after the last epoch the loop exits
returning the best metric observed.  The validation metric of each epoch is
abstracted as a function `valAcc : ℕ → ℚ` (accuracies are non-negative, and
the tracker starts at `0`). -/

/-- Modelled from the spec: the epoch recursion of the training loop.
`epoch` is the current epoch number, `remaining` the number of epochs still
to run, `best` the best validation metric observed so far. -/
def runEpochs (valAcc : ℕ → ℚ) (evalInterval : ℕ) :
    (epoch remaining : ℕ) → (best : ℚ) → ℚ
  | _, 0, best => best
  | epoch, remaining + 1, best =>
      let best' := if epoch % evalInterval = 0 then max best (valAcc epoch)
        else best
      runEpochs valAcc evalInterval (epoch + 1) remaining best'

/-- Modelled from the spec: `train_model` as called by main.py lines 144-156,
with `EVAL_INTERVAL = 1` (main.py line 31), returning the best validation
metric observed over the run. -/
def train_model (valAcc : ℕ → ℚ) (nEpochs : ℕ) : ℚ :=
  runEpochs valAcc 1 1 nEpochs 0

/-! ## Concrete scenarios used by the theorems -/

/-- The synthetic two-domain scenario of spec §8.5: one domain with ten
correctly classified class-1 boxes, another with two misclassified class-1
boxes. -/
def twoDomainExample : List TestBox :=
  List.replicate 10 ⟨0, 1, true⟩ ++ List.replicate 2 ⟨1, 1, false⟩

/-- A validation-accuracy history whose best value (epoch 1) is not the final
epoch's value. -/
def peakFirstValAcc : ℕ → ℚ :=
  fun e => if e = 1 then 1 else 0

/-- A fold directory with neither optional file present. -/
def emptyFoldDir : FoldDirFiles :=
  { webpage_info_isfile := false
    webpage_info_rows := []
    test_domains_isfile := false
    test_domains_rows := [] }

/-! # Theorems -/

/-- C4: a configured sampling fraction outside `[0,1]` is replaced by `1`
before use; a value inside `[0,1]`, endpoints included, is passed through
unchanged. -/
theorem sampling_fraction_clamped (sf : ℚ) :
    ((sf < 0 ∨ 1 < sf) → SAMPLING_FRACTION sf = 1) ∧
    (0 ≤ sf → sf ≤ 1 → SAMPLING_FRACTION sf = sf) := by
  constructor
  · intro h
    have hne : ¬(0 ≤ sf ∧ sf ≤ 1) := by
      rcases h with h | h <;> intro hc <;> rcases hc with ⟨h0, h1⟩ <;> linarith
    simp [SAMPLING_FRACTION, hne]
  · intro h0 h1
    simp [SAMPLING_FRACTION, h0, h1]

/-- Witness for C4 at the concrete inputs `3/2` (clamped) and `1/2`
(passed through). -/
theorem sampling_fraction_clamped_witness :
    SAMPLING_FRACTION (3/2) = 1 ∧ SAMPLING_FRACTION (1/2) = 1/2 :=
  ⟨(sampling_fraction_clamped (3/2)).1 (Or.inr (by norm_num)),
   (sampling_fraction_clamped (1/2)).2 (by norm_num) (by norm_num)⟩

/-- C6: the scheduler constructed by main.py (`StepLR` with `gamma = 1`) is an
identity schedule — after any number of scheduler steps the learning rate
equals the configured initial learning rate. -/
theorem scheduler_identity (initial_lr : ℚ) (nSteps : ℕ) :
    scheduler_lr initial_lr nSteps = initial_lr := by
  simp [scheduler_lr, stepLR]

/-- C7: the context-aggregator sub-component exists in the model constructed
by main.py if and only if the configured context size is strictly positive;
the `use_context` flag is computed once from the configuration and decides the
component at construction. -/
theorem context_aggregator_iff_context_pos (context_size hidden_dim_arg roi
    bbox_hidden_dim n_additional_feat : ℤ) (drop_prob : ℚ) :
    (mainModel context_size hidden_dim_arg roi bbox_hidden_dim
        n_additional_feat drop_prob).contextAggregator.isSome =
      decide (0 < context_size) := by
  by_cases h : 0 < context_size <;>
    simp [mainModel, CoVA, use_context, h]

/-- C10: with context disabled (context size `≤ 0`) the hidden dimension used
(passed to model construction and logged) is `0` whatever the supplied
argument; with context enabled it is the supplied argument. -/
theorem hidden_dim_forced_zero (context_size hidden_dim_arg : ℤ) :
    (context_size ≤ 0 → HIDDEN_DIM context_size hidden_dim_arg = 0) ∧
    (0 < context_size → HIDDEN_DIM context_size hidden_dim_arg = hidden_dim_arg) := by
  constructor
  · intro h
    simp [HIDDEN_DIM, use_context, not_lt.mpr h]
  · intro h
    simp [HIDDEN_DIM, use_context, h]

/-- Witness for C10 at context sizes `-3` (disabled) and `2` (enabled), with
supplied hidden dimension `7`. -/
theorem hidden_dim_forced_zero_witness :
    HIDDEN_DIM (-3) 7 = 0 ∧ HIDDEN_DIM 2 7 = 7 :=
  ⟨(hidden_dim_forced_zero (-3) 7).1 (by norm_num),
   (hidden_dim_forced_zero 2 7).2 (by norm_num)⟩

/-! ### Results-CSV accumulation (C9) -/

/-- A string with a nonempty left component of an append is nonempty. -/
theorem append_ne_empty_left (s t : String) (h : s ≠ "") : s ++ t ≠ "" := by
  intro hc
  apply h
  have h2 : s.data ++ t.data = ([] : List Char) := by
    simpa [String.data_append] using congrArg String.data hc
  have hs : s.data = [] := (List.append_eq_nil.mp h2).1
  exact String.ext hs

/-- The fixed header row is a nonempty string. -/
theorem foldAccHeader_ne_empty : foldAccHeader ≠ "" := by
  decide

/-- Runs against a nonempty file only append their rows (no header). -/
theorem foldl_appendFoldAcc (rows : List String) :
    ∀ content : String, content ≠ "" →
      rows.foldl appendFoldAcc content = content ++ String.join rows := by
  induction rows with
  | nil => intro content _; simp [String.join]
  | cons r rs ih =>
      intro content h
      have step : appendFoldAcc content r = content ++ r := by
        simp [appendFoldAcc, h]
      rw [List.foldl_cons, step, ih _ (append_ne_empty_left _ _ h)]
      apply String.ext
      simp [String.data_append]

/-- C9: starting from an empty results CSV, the first run writes the header
followed by its data row, and each later run appends exactly its data row, so
`n` runs leave one header followed by the `n` data rows in run order;
moreover, a run against any nonempty file contents appends only its row. -/
theorem fold_acc_header_once :
    (∀ (r : String) (rs : List String),
      foldAccAfterRuns (r :: rs) = foldAccHeader ++ r ++ String.join rs) ∧
    (∀ content row : String, content ≠ "" →
      appendFoldAcc content row = content ++ row) := by
  constructor
  · intro r rs
    rw [foldAccAfterRuns, List.foldl_cons]
    have h1 : appendFoldAcc "" r = foldAccHeader ++ r := by
      simp [appendFoldAcc]
    rw [h1, foldl_appendFoldAcc rs _ (append_ne_empty_left _ _ foldAccHeader_ne_empty)]
  · intro content row h
    simp [appendFoldAcc, h]

/-- Witness for C9: two concrete runs, and one append to concrete nonempty
contents. -/
theorem fold_acc_header_once_witness :
    foldAccAfterRuns ["1,0.5\n", "2,0.7\n"] =
      foldAccHeader ++ "1,0.5\n" ++ String.join ["2,0.7\n"] ∧
    appendFoldAcc "x" "y" = "x" ++ "y" :=
  ⟨fold_acc_header_once.1 "1,0.5\n" ["2,0.7\n"],
   fold_acc_header_once.2 "x" "y" (by decide)⟩

/-! ### Macro-averaged domain accuracy (C2) -/

/-- The class-1 boxes of the synthetic scenario span exactly the two domains
`0` and `1`. -/
theorem twoDomain_domains : domainsOf twoDomainExample 1 = [0, 1] := by
  simp [domainsOf, classBoxes, twoDomainExample, List.replicate, List.filter,
    List.dedup_cons_of_mem, List.dedup_cons_of_not_mem]

/-- Micro accuracy of class 1 in the synthetic scenario: `10/12`. -/
theorem twoDomain_micro : microAcc twoDomainExample 1 = 10 / 12 := by
  norm_num [microAcc, accOf, classBoxes, twoDomainExample, List.replicate,
    List.filter, List.countP, List.countP.go]

/-- Per-domain class-1 accuracies in the synthetic scenario: `1` and `0`. -/
theorem twoDomain_domainAccs :
    domainAcc twoDomainExample 1 0 = 1 ∧ domainAcc twoDomainExample 1 1 = 0 := by
  constructor <;>
    norm_num [domainAcc, accOf, classBoxes, twoDomainExample, List.replicate,
      List.filter, List.countP, List.countP.go]

/-- Macro accuracy of class 1 in the synthetic scenario: `1/2`. -/
theorem twoDomain_mean : domainMeanAcc twoDomainExample 1 = 1 / 2 := by
  rw [domainMeanAcc, twoDomain_domains]
  norm_num [twoDomain_domainAccs.1, twoDomain_domainAccs.2]

/-- C2: the reported macro-domain accuracy of a class is the unweighted
arithmetic mean of the per-domain accuracies of that class (their sum over
the number of domains); on the synthetic two-domain scenario — domain
accuracies `1.0` over 10 boxes and `0.0` over 2 boxes — micro accuracy is
`10/12` while macro accuracy is `1/2`, and the two differ. -/
theorem macro_acc_unweighted_mean :
    (∀ (boxes : List TestBox) (c : ℕ), domainsOf boxes c ≠ [] →
      domainMeanAcc boxes c * ((domainsOf boxes c).length : ℚ) =
        ((domainsOf boxes c).map (domainAcc boxes c)).sum) ∧
    microAcc twoDomainExample 1 = 10 / 12 ∧
    domainAcc twoDomainExample 1 0 = 1 ∧
    domainAcc twoDomainExample 1 1 = 0 ∧
    domainMeanAcc twoDomainExample 1 = 1 / 2 ∧
    microAcc twoDomainExample 1 ≠ domainMeanAcc twoDomainExample 1 := by
  refine ⟨?_, twoDomain_micro, twoDomain_domainAccs.1, twoDomain_domainAccs.2,
    twoDomain_mean, ?_⟩
  · intro boxes c h
    have hlen : ((domainsOf boxes c).length : ℚ) ≠ 0 := by
      exact_mod_cast fun hc => h (List.length_eq_zero.mp hc)
    rw [domainMeanAcc]
    exact div_mul_cancel₀ _ hlen
  · rw [twoDomain_micro, twoDomain_mean]
    norm_num

/-- Witness for C2: the unweighted-mean identity instantiated on the
synthetic two-domain scenario. -/
theorem macro_acc_unweighted_mean_witness :
    domainMeanAcc twoDomainExample 1 * ((domainsOf twoDomainExample 1).length : ℚ) =
      ((domainsOf twoDomainExample 1).map (domainAcc twoDomainExample 1)).sum :=
  macro_acc_unweighted_mean.1 twoDomainExample 1 (by decide)

/-! ### Optional evaluation inputs (C5) -/

/-- C5: when the optional `webpage_info.csv` is absent the value handed to
the evaluation engine is `None` and evaluation still produces the per-class
metrics, with no domain-wise metrics (and no error — `evaluate` is total);
when the optional `test_domains.txt` is absent the filter handed over is
`None` as well. -/
theorem missing_optional_inputs_fallback (fs : FoldDirFiles)
    (boxes : List RawBox) (td : Option (List ℕ)) :
    (fs.webpage_info_isfile = false →
      webpage_info fs = none ∧
      (evaluate boxes (webpage_info fs) td).macro_acc = none ∧
      (evaluate boxes (webpage_info fs) td).class_acc =
        (List.range 4).map (fun c =>
          microAcc (boxes.map (fun b => ⟨0, b.label, b.correct⟩)) c)) ∧
    (fs.test_domains_isfile = false → test_domains fs = none) := by
  constructor
  · intro h
    have hw : webpage_info fs = none := by simp [webpage_info, h]
    exact ⟨hw, by simp [evaluate, hw], by simp [evaluate]⟩
  · intro h
    simp [test_domains, h]

/-- Witness for C5: a fold directory with neither optional file, and an empty
test set. -/
theorem missing_optional_inputs_fallback_witness :
    (webpage_info emptyFoldDir = none ∧
      (evaluate [] (webpage_info emptyFoldDir) none).macro_acc = none ∧
      (evaluate [] (webpage_info emptyFoldDir) none).class_acc =
        (List.range 4).map (fun c =>
          microAcc (([] : List RawBox).map (fun b => ⟨0, b.label, b.correct⟩)) c)) ∧
    test_domains emptyFoldDir = none :=
  ⟨(missing_optional_inputs_fallback emptyFoldDir [] none).1 rfl,
   (missing_optional_inputs_fallback emptyFoldDir [] none).2 rfl⟩

/-! ### Training loop returns the best validation metric (C8) -/

/-- With `EVAL_INTERVAL = 1`, the epoch recursion folds `max` over the
validation metrics of the epochs it runs. -/
theorem runEpochs_interval_one (valAcc : ℕ → ℚ) (remaining : ℕ) :
    ∀ (epoch : ℕ) (best : ℚ),
      runEpochs valAcc 1 epoch remaining best =
        ((List.range' epoch remaining).map valAcc).foldl max best := by
  induction remaining with
  | zero => intro epoch best; simp [runEpochs]
  | succ n ih =>
      intro epoch best
      rw [runEpochs, List.range'_succ]
      simp only [Nat.mod_one, if_pos, List.map_cons, List.foldl_cons]
      exact ih (epoch + 1) (max best (valAcc epoch))

/-- C8: the training loop terminates after the configured number of epochs
with the best validation metric observed over all validation passes of the
run (the fold of `max` over the per-epoch metrics of epochs `1..nEpochs`);
on a run whose metrics peak at epoch 1, the returned value is `1`, which is
not the final epoch's metric `0`. -/
theorem train_model_returns_best :
    (∀ (valAcc : ℕ → ℚ) (nEpochs : ℕ),
      train_model valAcc nEpochs =
        ((List.range' 1 nEpochs).map valAcc).foldl max 0) ∧
    train_model peakFirstValAcc 2 = 1 ∧
    peakFirstValAcc 2 = 0 ∧
    train_model peakFirstValAcc 2 ≠ peakFirstValAcc 2 := by
  refine ⟨fun valAcc nEpochs => runEpochs_interval_one valAcc nEpochs 1 0,
    by decide, by decide, by decide⟩

/-! ### Cross-entropy criterion (C1, C3) -/

/-- The unweighted sum-reduced loss is the plain sum of the per-box cross
entropies. -/
theorem unweighted_sum (batch : List Sample) :
    crossEntropyLoss none Reduction.sum batch = (batch.map perBoxCE).sum := by
  simp [crossEntropyLoss, boxWeight]

/-- Per-box cross entropy of the uniform two-logit box: `log 2`. -/
theorem perBoxCE_uniform : perBoxCE ⟨[0, 0], 0⟩ = Real.log 2 := by
  simp [perBoxCE, softmaxDenom]
  norm_num

/-- C1: the training criterion (`nn.CrossEntropyLoss(reduction="sum")`) gives
the sum of the per-box cross-entropy terms, not an average, so on a batch of
`n` equal boxes its value is `n` times the per-box term — the magnitude
scales with the batch's box count. -/
theorem criterion_sum_reduction :
    (∀ batch : List Sample, criterion batch = (batch.map perBoxCE).sum) ∧
    (∀ (s : Sample) (n : ℕ), criterion (List.replicate n s) = n * perBoxCE s) := by
  constructor
  · intro batch
    exact unweighted_sum batch
  · intro s n
    rw [criterion, unweighted_sum, List.map_replicate, List.sum_replicate,
      nsmul_eq_mul]

/-- C3: the class-weight vector of the cross-entropy loss is configuration:
with no weight configured the loss is the unweighted sum of per-box cross
entropies, and there is a weight configuration whose loss applies the
per-class weights and differs from the unweighted loss on a concrete batch. -/
theorem loss_weighting_configurable :
    (∀ batch : List Sample,
      crossEntropyLoss none Reduction.sum batch = (batch.map perBoxCE).sum) ∧
    (∃ (w : List ℝ) (batch : List Sample),
      crossEntropyLoss (some w) Reduction.sum batch =
        (batch.map (fun s => boxWeight (some w) s * perBoxCE s)).sum ∧
      crossEntropyLoss (some w) Reduction.sum batch ≠
        crossEntropyLoss none Reduction.sum batch) := by
  refine ⟨unweighted_sum, ⟨[2, 2], [⟨[0, 0], 0⟩], rfl, ?_⟩⟩
  have hlog : Real.log 2 ≠ 0 := ne_of_gt (Real.log_pos (by norm_num))
  intro hc
  simp [crossEntropyLoss, boxWeight, perBoxCE_uniform] at hc
  exact hlog (by linarith)

end CoVAMain
